import Mathlib

/-!
Verification of the TimeFlowV3 front-end's role-based access and
session-redirect control flow, shallowly embedded from the source:

* `App.jsx` — `ProtectedRoute`, `PublicRoute`, the role→home-route
  redirect map, and the route table of `AppRoutes`;
* `AuthContext.jsx` — the session store (`logout`, the boot effect,
  `hasRole`, `canAccess`);
* `lib/api.js` — `parseErrorMessage` and the axios request/response
  interceptors.

JavaScript objects reachable from error payloads are modelled by the
inductive `JVal`; JS truthiness, property access, `||`, `typeof`
dispatch, `JSON.stringify` and string coercion are modelled by the
functions below. Roles are strings, as in the source, where
`user.role` is an untyped string field.
-/

/-- The authenticated user record, per the Identity data model
(`id`, `email`, `first_name`, `last_name`, `phone`, `role`,
`is_active`, `businesses`). Only `role` drives access decisions. -/
structure Identity where
  id : String
  email : String
  first_name : String
  last_name : String
  phone : String
  role : String
  is_active : Bool
  businesses : List String
deriving DecidableEq, Repr

/-- `user?.role`: the role of an optional user, `none` when the user is
absent (JS `undefined`). -/
def roleOf (user : Option Identity) : Option String :=
  user.map Identity.role

/-- What `redirectMap[user?.role] || '/'` can evaluate to: a route
string handed to `<Navigate to=...>`, or — for a key that hits the
prototype chain of the plain object literal — the inherited truthy
non-string member of `Object.prototype` (a function, or for
`__proto__` the prototype object itself). -/
inductive NavTarget where
  | path (s : String) : NavTarget
  | protoFn (name : String) : NavTarget
deriving DecidableEq, Repr

/-- The property names a plain object literal inherits from
`Object.prototype` (including the Annex B accessors present in
browsers); each evaluates to a truthy value. -/
def objectPrototypeProps : List String :=
  ["constructor", "hasOwnProperty", "isPrototypeOf",
   "propertyIsEnumerable", "toLocaleString", "toString", "valueOf",
   "__proto__", "__defineGetter__", "__defineSetter__",
   "__lookupGetter__", "__lookupSetter__"]

/-- The `redirectMap` object literal of `ProtectedRoute` and
`PublicRoute` in `App.jsx`: JS property lookup `redirectMap[user?.role]`
returns the own value for the five literal keys, the inherited truthy
value for a key found on `Object.prototype` (e.g. `toString`), and
`undefined` (`none`) for every other key, including the absent key
`undefined`. -/
def redirectMap (role : Option String) : Option NavTarget :=
  match role with
  | none => none
  | some r =>
    if r = "super_admin" then some (NavTarget.path "/admin")
    else if r = "admin" then some (NavTarget.path "/admin")
    else if r = "business" then some (NavTarget.path "/business")
    else if r = "staff" then some (NavTarget.path "/staff")
    else if r = "client" then some (NavTarget.path "/client")
    else if objectPrototypeProps.contains r then some (NavTarget.protoFn r)
    else none

/-- `redirectMap[user?.role] || '/'` — the own route values and the
inherited `Object.prototype` members are all truthy, so `||` defaults
only on `undefined`. -/
def homeRouteFor (role : Option String) : NavTarget :=
  (redirectMap role).getD (NavTarget.path "/")

/-- What a route guard renders: the neutral spinner, a `<Navigate>`
redirect (`dest` is the `to` prop, `replace` the history-replace flag),
or the guarded children. -/
inductive GuardResult where
  | spinner : GuardResult
  | redirect (dest : NavTarget) (replace : Bool) : GuardResult
  | render : GuardResult
deriving DecidableEq, Repr

/-- JS `allowedRoles.includes(user?.role)` on an array of strings:
`undefined` is never an element of a string array. -/
def includesOpt (rs : List String) (r : Option String) : Bool :=
  match r with
  | some s => rs.contains s
  | none => false

/-- `ProtectedRoute` of `App.jsx`: spinner while `loading`; redirect to
`/login` (replacing history) when unauthenticated (`isAuthenticated` is
`!!user` in the context); redirect to `redirectMap[user?.role] || '/'`
(replacing history) when `allowedRoles` is supplied and excludes the
user's role; otherwise render the children. An empty `allowedRoles`
array is truthy in JS, so `some []` still triggers the role check. -/
def ProtectedRoute (loading : Bool) (user : Option Identity)
    (allowedRoles : Option (List String)) : GuardResult :=
  if loading then GuardResult.spinner
  else if user.isSome = false then
    GuardResult.redirect (NavTarget.path "/login") true
  else
    match allowedRoles with
    | some rs =>
      if includesOpt rs (roleOf user) = false then
        GuardResult.redirect (homeRouteFor (roleOf user)) true
      else GuardResult.render
    | none => GuardResult.render

/-- `PublicRoute` of `App.jsx`: spinner while `loading`; redirect an
already-authenticated user to `redirectMap[user?.role] || '/'`
(replacing history); otherwise render the auth form. -/
def PublicRoute (loading : Bool) (user : Option Identity) : GuardResult :=
  if loading then GuardResult.spinner
  else if user.isSome then
    GuardResult.redirect (homeRouteFor (roleOf user)) true
  else GuardResult.render

/-- How a top-level route of `AppRoutes` is wrapped. -/
inductive RouteElement where
  | plain : RouteElement
  | publicR : RouteElement
  | protectedR (allowedRoles : List String) : RouteElement
deriving DecidableEq, Repr

/-- The top-level route table of `AppRoutes` in `App.jsx`: path and
guard wrapper with its declared `allowedRoles`. -/
def routeTable : List (String × RouteElement) :=
  [("/", RouteElement.plain),
   ("/login", RouteElement.publicR),
   ("/register", RouteElement.publicR),
   ("/admin", RouteElement.protectedR ["super_admin", "admin"]),
   ("/business", RouteElement.protectedR ["business"]),
   ("/staff", RouteElement.protectedR ["staff"]),
   ("/client", RouteElement.protectedR ["client"])]

/-- The five role values of the data model. -/
def knownRoles : List String :=
  ["super_admin", "admin", "business", "staff", "client"]

/-- A concrete client-role Identity, used to instantiate witnesses. -/
def someClient : Identity :=
  { id := "u1", email := "client@example.com", first_name := "Cli",
    last_name := "Ent", phone := "555", role := "client",
    is_active := true, businesses := [] }

/-- The `permissions` object literal inside `canAccess` of
`AuthContext.jsx`: JS property lookup `permissions[user.role]` yields
`undefined` for keys outside the five literal keys; the source then
defaults it to `[]` with `|| []`. -/
def permissions (role : String) : List String :=
  if role = "super_admin" then ["all"]
  else if role = "admin" then
    ["businesses", "users", "services", "staff", "appointments",
     "clients", "finance", "reports"]
  else if role = "business" then
    ["services", "staff", "appointments", "clients", "finance", "reports"]
  else if role = "staff" then ["appointments", "calendar"]
  else if role = "client" then ["my_appointments"]
  else []

/-- `canAccess` of `AuthContext.jsx`: `false` with no user; otherwise
`userPermissions.includes('all') || userPermissions.includes(resource)`
over the role's permission list. -/
def canAccess (user : Option Identity) (resource : String) : Bool :=
  match user with
  | none => false
  | some u =>
    let userPermissions := permissions u.role
    userPermissions.contains "all" || userPermissions.contains resource

/-- The argument of `hasRole`: JS callers pass either a single role
string or an array of role strings, discriminated by `typeof`. -/
inductive RoleArg where
  | str (s : String) : RoleArg
  | list (l : List String) : RoleArg
deriving DecidableEq, Repr

/-- `hasRole` of `AuthContext.jsx`: `false` with no user; a string
argument compares with `===`; an array argument uses `includes`. -/
def hasRole (user : Option Identity) (roles : RoleArg) : Bool :=
  match user with
  | none => false
  | some u =>
    match roles with
    | RoleArg.str s => u.role == s
    | RoleArg.list l => l.contains u.role

/-- Modelled from the spec wording of the amended C4 claim: the fixed
permitted resource set of each non-wildcard role (`super_admin` is
handled by its `all` wildcard, every unknown role has the empty set).
Compared against the source-derived `canAccess`. -/
def permittedResources (role : String) : List String :=
  if role = "admin" then
    ["businesses", "users", "services", "staff", "appointments",
     "clients", "finance", "reports"]
  else if role = "business" then
    ["services", "staff", "appointments", "clients", "finance", "reports"]
  else if role = "staff" then ["appointments", "calendar"]
  else if role = "client" then ["my_appointments"]
  else []

/-- The session store state of `AuthProvider` in `AuthContext.jsx`:
the durable `localStorage` slot, the in-memory `token` and `user`
React state, and the `loading` flag. -/
structure SessionState where
  stored : Option String
  token : Option String
  user : Option Identity
  loading : Bool
deriving DecidableEq, Repr

/-- `logout` of `AuthContext.jsx`: `localStorage.removeItem('token')`,
`setToken(null)`, `setUser(null)`; `loading` is untouched. -/
def logout (s : SessionState) : SessionState :=
  { stored := none, token := none, user := none, loading := s.loading }

/-- `isAuthenticated: !!user` from the context value. -/
def isAuthenticated (s : SessionState) : Bool :=
  s.user.isSome

/-- Session boot: `useState(localStorage.getItem('token'))` plus the
`useEffect` on `[token]` — with a stored token, `fetchUser()` issues
one network request (`GET /auth/me`) and the session is `loading`;
with no stored token, `setLoading(false)` and no request is issued.
Returns the state together with the number of network requests. -/
def initSession (stored : Option String) : SessionState × Nat :=
  match stored with
  | none => ({ stored := none, token := none, user := none,
               loading := false }, 0)
  | some t => ({ stored := some t, token := some t, user := none,
                 loading := true }, 1)

/-- The session states reachable through the operations of the session
store. `loginOk`/`registerOk` are the success paths of `login`/
`register` (store token durably, set both token and user);
`fetchUserOk`/`fetchUserErr` resolve the boot-time `GET /auth/me`;
`doUpdateUser` is `updateUser`, an unconditional `setUser(userData)` —
callers do not re-check the session, so it can fire in any state, e.g.
when a profile-save request resolves after `logout()` ran;
`interceptor401` is the response interceptor of `api.js` removing the
durable token; `reload` is a full page load re-initializing the
provider from the durable slot (as forced by the interceptor's
`window.location.href` navigation). -/
inductive Reachable : SessionState → Prop where
  | bootNone : Reachable ⟨none, none, none, false⟩
  | bootToken (t : String) : Reachable ⟨some t, some t, none, true⟩
  | fetchUserOk (t : String) (u : Identity) :
      Reachable ⟨some t, some t, none, true⟩ →
      Reachable ⟨some t, some t, some u, false⟩
  | fetchUserErr (t : String) :
      Reachable ⟨some t, some t, none, true⟩ →
      Reachable ⟨none, none, none, false⟩
  | loginOk (s : SessionState) (t : String) (u : Identity) :
      Reachable s → Reachable ⟨some t, some t, some u, s.loading⟩
  | registerOk (s : SessionState) (t : String) (u : Identity) :
      Reachable s → Reachable ⟨some t, some t, some u, s.loading⟩
  | doLogout (s : SessionState) : Reachable s → Reachable (logout s)
  | doUpdateUser (s : SessionState) (u' : Identity) :
      Reachable s → Reachable { s with user := some u' }
  | interceptor401 (s : SessionState) :
      Reachable s → Reachable { s with stored := none }
  | reload (s : SessionState) :
      Reachable s → Reachable (initSession s.stored).1

/-- The states reachable when every operation except `updateUser` may
fire: the restriction under which the token/Identity consistency
invariant does hold (an unconditional `updateUser` after `logout`
breaks it, see the C9 counterexample). -/
inductive ReachableNoUpdate : SessionState → Prop where
  | bootNone : ReachableNoUpdate ⟨none, none, none, false⟩
  | bootToken (t : String) : ReachableNoUpdate ⟨some t, some t, none, true⟩
  | fetchUserOk (t : String) (u : Identity) :
      ReachableNoUpdate ⟨some t, some t, none, true⟩ →
      ReachableNoUpdate ⟨some t, some t, some u, false⟩
  | fetchUserErr (t : String) :
      ReachableNoUpdate ⟨some t, some t, none, true⟩ →
      ReachableNoUpdate ⟨none, none, none, false⟩
  | loginOk (s : SessionState) (t : String) (u : Identity) :
      ReachableNoUpdate s → ReachableNoUpdate ⟨some t, some t, some u, s.loading⟩
  | registerOk (s : SessionState) (t : String) (u : Identity) :
      ReachableNoUpdate s → ReachableNoUpdate ⟨some t, some t, some u, s.loading⟩
  | doLogout (s : SessionState) :
      ReachableNoUpdate s → ReachableNoUpdate (logout s)
  | interceptor401 (s : SessionState) :
      ReachableNoUpdate s → ReachableNoUpdate { s with stored := none }
  | reload (s : SessionState) :
      ReachableNoUpdate s → ReachableNoUpdate (initSession s.stored).1

/-- An axios request config, with the one header the interceptor
touches (`Authorization`) split out from the remaining headers. -/
structure AxiosRequest where
  url : Option String
  method : String
  body : Option String
  authorization : Option String
  otherHeaders : List (String × String)
deriving DecidableEq, Repr

/-- The URL rewrite of the request interceptor in `api.js`: a nonempty
(truthy) URL without `?` and without a trailing slash gets `/`
appended; a URL containing `?` whose path part lacks a trailing slash
is rebuilt as `path + '/?' + query`, where JS destructuring of
`split('?')` keeps only the first two pieces; otherwise the URL is
unchanged. Modelled over the character list: `endsWith('/')` is a
last-character test, `includes('?')` a character search, and the first
two pieces of `split('?')` are the characters before the first `?` and
those between the first and the second `?`. -/
def addTrailingSlash (url : Option String) : Option String :=
  match url with
  | none => none
  | some u =>
    let cs := u.data
    let endsSlash := cs.getLast? == some '/'
    let hasQ := cs.contains '?'
    let path := String.mk (cs.takeWhile (· != '?'))
    let query :=
      String.mk (((cs.dropWhile (· != '?')).drop 1).takeWhile (· != '?'))
    let pathEndsSlash := (cs.takeWhile (· != '?')).getLast? == some '/'
    if cs.isEmpty then some u
    else if !endsSlash && !hasQ then some (u ++ "/")
    else if hasQ && !pathEndsSlash then some (path ++ "/?" ++ query)
    else some u

/-- The request interceptor of `api.js`: sets
`config.headers.Authorization = 'Bearer ' + token` when
`localStorage.getItem('token')` is present, then applies the
trailing-slash URL rewrite. Nothing else in the config is touched. -/
def requestInterceptor (stored : Option String) (c : AxiosRequest) :
    AxiosRequest :=
  let c1 :=
    match stored with
    | some t => { c with authorization := some ("Bearer " ++ t) }
    | none => c
  { c1 with url := addTrailingSlash c1.url }

/-- A concrete GET request whose URL lacks a trailing slash. -/
def req0 : AxiosRequest :=
  { url := some "users", method := "get", body := none,
    authorization := none, otherHeaders := [] }

/-- The browser state the response interceptor of `api.js` touches:
the durable token slot and `window.location`. -/
structure Browser where
  stored : Option String
  path : String
deriving DecidableEq, Repr

/-- The 401 branch of the response interceptor in `api.js`:
`localStorage.removeItem('token')`, then, if
`window.location.pathname !== '/login'`, navigate to `/login`. The
second component records whether a navigation was issued. -/
def on401 (b : Browser) : Browser × Bool :=
  let b1 : Browser := { b with stored := none }
  if b1.path = "/login" then (b1, false)
  else ({ b1 with path := "/login" }, true)

/-- Observable effects of a run of 401 handlers: the final browser
state, how many navigations were issued, and how many times the durable
token actually transitioned from present to absent. -/
structure Effects401 where
  finalState : Browser
  navCount : Nat
  removeCount : Nat
deriving DecidableEq, Repr

/-- `n` concurrent requests each answered 401: the single-threaded
event loop runs the `n` interceptor callbacks one after another, each
seeing the browser state left by the previous one (the navigation and
the token removal take effect before the next callback runs). -/
def on401Many : Browser → Nat → Effects401
  | b, 0 => ⟨b, 0, 0⟩
  | b, n + 1 =>
    let rem := if b.stored.isSome then 1 else 0
    let step := on401 b
    let rest := on401Many step.1 n
    ⟨rest.finalState, (if step.2 then 1 else 0) + rest.navCount,
      rem + rest.removeCount⟩

/-- JavaScript values reachable from an error payload: `null`, numbers,
strings, arrays and plain objects (fields listed with distinct keys). -/
inductive JVal where
  | vnull : JVal
  | vnum (n : Int) : JVal
  | vstr (s : String) : JVal
  | varr (elems : List JVal) : JVal
  | vobj (fields : List (String × JVal)) : JVal

/-- JS truthiness of a `JVal` (`undefined` is modelled as absence,
i.e. `Option.none`, at use sites). -/
def truthy : JVal → Bool
  | JVal.vnull => false
  | JVal.vnum n => n != 0
  | JVal.vstr s => s != ""
  | JVal.varr _ => true
  | JVal.vobj _ => true

/-- Outcome of evaluating a JS expression that may throw: a value, or
a thrown `TypeError`. -/
inductive JsRes (α : Type) where
  | ok (val : α) : JsRes α
  | typeError : JsRes α

/-- Own-property read on a value already known not to be `null`:
`none` (`undefined`) on non-objects and missing keys. -/
def lookupProp : JVal → String → Option JVal
  | JVal.vobj fs, k => fs.lookup k
  | _, _ => none

/-- JS property read `v[k]`: throws `TypeError` when `v` is `null`;
otherwise `undefined` (`none`) on non-objects and missing keys. -/
def getf (v : JVal) (k : String) : JsRes (Option JVal) :=
  match v with
  | JVal.vnull => JsRes.typeError
  | _ => JsRes.ok (lookupProp v k)

/-- JS `a || b` where `a` may be `undefined` (`none`). -/
def jsOr (a : Option JVal) (b : JVal) : JVal :=
  match a with
  | some v => if truthy v then v else b
  | none => b

/-- The hexadecimal digit characters used by `\u00XX` escapes
(lowercase, as JS emits them). -/
def hexDigit (n : Nat) : Char :=
  if n < 10 then Char.ofNat (48 + n) else Char.ofNat (87 + n)

/-- The escape of a single character inside a JSON-serialized string:
`"` and `\` are backslash-escaped, the control characters get their
short or `\u00XX` forms, everything else stands for itself. -/
def escapeJsonChar (c : Char) : List Char :=
  if c = '"' then ['\\', '"']
  else if c = '\\' then ['\\', '\\']
  else if c.toNat = 8 then ['\\', 'b']
  else if c.toNat = 9 then ['\\', 't']
  else if c.toNat = 10 then ['\\', 'n']
  else if c.toNat = 12 then ['\\', 'f']
  else if c.toNat = 13 then ['\\', 'r']
  else if c.toNat < 32 then
    ['\\', 'u', '0', '0', hexDigit (c.toNat / 16), hexDigit (c.toNat % 16)]
  else [c]

/-- String escaping as performed by `JSON.stringify`. -/
def escapeJson (s : String) : String :=
  String.mk (s.data.foldr (fun c acc => escapeJsonChar c ++ acc) [])

mutual

/-- `JSON.stringify`, modelled for the value forms of `JVal`. -/
def stringify : JVal → String
  | JVal.vnull => "null"
  | JVal.vnum n => toString n
  | JVal.vstr s => "\"" ++ escapeJson s ++ "\""
  | JVal.varr xs => "[" ++ stringifyItems xs ++ "]"
  | JVal.vobj fs => "\x7b" ++ stringifyFields fs ++ "\x7d"

/-- Comma-joined serialization of array elements. -/
def stringifyItems : List JVal → String
  | [] => ""
  | [x] => stringify x
  | x :: y :: xs => stringify x ++ "," ++ stringifyItems (y :: xs)

/-- Comma-joined serialization of object fields. -/
def stringifyFields : List (String × JVal) → String
  | [] => ""
  | [(k, v)] => "\"" ++ escapeJson k ++ "\":" ++ stringify v
  | (k, v) :: f :: fs =>
    "\"" ++ escapeJson k ++ "\":" ++ stringify v ++ "," ++
      stringifyFields (f :: fs)

end

mutual

/-- JS string coercion `String(v)`, as applied by `Array.join`. -/
def coerce : JVal → String
  | JVal.vnull => "null"
  | JVal.vnum n => toString n
  | JVal.vstr s => s
  | JVal.varr xs => coerceItems xs
  | JVal.vobj _ => "[object Object]"

/-- `Array.prototype.toString`: elements joined with `,`; a `null`
element contributes the empty string. -/
def coerceItems : List JVal → String
  | [] => ""
  | [JVal.vnull] => ""
  | [x] => coerce x
  | JVal.vnull :: y :: xs => "," ++ coerceItems (y :: xs)
  | x :: y :: xs => coerce x ++ "," ++ coerceItems (y :: xs)

end

/-- Is this JS value `null`? -/
def isNullV : JVal → Bool
  | JVal.vnull => true
  | _ => false

/-- The pure value of `d.msg || d.message || JSON.stringify(d)` for a
non-null `d` (own-property reads cannot throw then). -/
def msgFallback (d : JVal) : JVal :=
  jsOr (lookupProp d "msg")
    (jsOr (lookupProp d "message") (JVal.vstr (stringify d)))

/-- `d.msg || d.message || JSON.stringify(d)` from the array branch of
`parseErrorMessage` in `api.js`: the `d.msg` read throws `TypeError`
when `d` is `null` (a server-suppliable array element); otherwise the
whole expression is pure. -/
def msgOrStringify (d : JVal) : JsRes JVal :=
  match d with
  | JVal.vnull => JsRes.typeError
  | _ => JsRes.ok (msgFallback d)

/-- `error.response?.data?.detail`: the `error.response` read throws
`TypeError` when `error` is `null`; the two `?.` links short-circuit a
nullish `response` or `data` to `undefined` (so the later reads are on
non-null values and cannot throw). -/
def detailOf (e : JVal) : JsRes (Option JVal) :=
  match getf e "response" with
  | JsRes.typeError => JsRes.typeError
  | JsRes.ok none => JsRes.ok none
  | JsRes.ok (some JVal.vnull) => JsRes.ok none
  | JsRes.ok (some r) =>
    match lookupProp r "data" with
    | none => JsRes.ok none
    | some JVal.vnull => JsRes.ok none
    | some d => JsRes.ok (lookupProp d "detail")

/-- `detail.map(d => d.msg || d.message || JSON.stringify(d))`:
the callback runs left to right and the first thrown `TypeError`
aborts the map. -/
def mapMsgs : List JVal → JsRes (List JVal)
  | [] => JsRes.ok []
  | d :: ds =>
    match msgOrStringify d with
    | JsRes.typeError => JsRes.typeError
    | JsRes.ok v =>
      match mapMsgs ds with
      | JsRes.typeError => JsRes.typeError
      | JsRes.ok vs => JsRes.ok (v :: vs)

/-- `parseErrorMessage` of `api.js`: the detail reads may throw (null
error, or a null element of an array detail); a truthy `detail` that
is a string is returned; an array is mapped through
`d.msg || d.message || JSON.stringify(d)` and joined with `', '`; any
other object yields `detail.msg || detail.message ||
JSON.stringify(detail)` (returned as-is, not coerced); everything else
falls back to `defaultMessage`. -/
def parseErrorMessage (error : JVal) (defaultMessage : String) :
    JsRes JVal :=
  match detailOf error with
  | JsRes.typeError => JsRes.typeError
  | JsRes.ok none => JsRes.ok (JVal.vstr defaultMessage)
  | JsRes.ok (some detail) =>
    if truthy detail then
      match detail with
      | JVal.vstr s => JsRes.ok (JVal.vstr s)
      | JVal.varr xs =>
        match mapMsgs xs with
        | JsRes.typeError => JsRes.typeError
        | JsRes.ok vs =>
          JsRes.ok (JVal.vstr (String.intercalate ", " (vs.map coerce)))
      | JVal.vobj _ => msgOrStringify detail
      | _ => JsRes.ok (JVal.vstr defaultMessage)
    else JsRes.ok (JVal.vstr defaultMessage)

/-- Modelled from the spec wording of the amended C7 claim: the
`TypeError` of a null error value propagates; a truthy string detail
is returned as-is; an array detail throws if it contains a null
element and otherwise joins its members' messages; any other (truthy)
object detail yields its `msg` or `message` field or its JSON
serialization; otherwise the generic default. Compared against the
source-derived `parseErrorMessage`. -/
def parseErrorMessageSpec (error : JVal) (defaultMessage : String) :
    JsRes JVal :=
  match detailOf error with
  | JsRes.typeError => JsRes.typeError
  | JsRes.ok (some (JVal.vstr s)) =>
    if s = "" then JsRes.ok (JVal.vstr defaultMessage)
    else JsRes.ok (JVal.vstr s)
  | JsRes.ok (some (JVal.varr xs)) =>
    if xs.any isNullV then JsRes.typeError
    else JsRes.ok (JVal.vstr (String.intercalate ", "
      (xs.map fun d => coerce (msgFallback d))))
  | JsRes.ok (some (JVal.vobj fs)) => JsRes.ok (msgFallback (JVal.vobj fs))
  | _ => JsRes.ok (JVal.vstr defaultMessage)

/-- A raw error whose `response.data.detail` is a plain object carrying
a `msg` field — neither a string nor a list. -/
def err0 : JVal :=
  JVal.vobj [("response", JVal.vobj [("data", JVal.vobj [("detail",
    JVal.vobj [("msg", JVal.vstr "boom")])])])]

/-- C3 counterexample: the role `"toString"` is outside the five known
roles, yet `redirectMap["toString"]` finds the inherited truthy
`Object.prototype.toString`, so `|| '/'` does not default and
`homeRouteFor` does not map it to `/`. -/
theorem homeRouteFor_proto_key_not_root :
    homeRouteFor (some "toString") = NavTarget.protoFn "toString" ∧
    NavTarget.protoFn "toString" ≠ NavTarget.path "/" := by
  exact ⟨by decide, by decide⟩

/-- C3 amended: the five roles map to their dashboards; the absent role
and every other string that is not a property name inherited from
`Object.prototype` map to `/`; an inherited property name yields the
inherited truthy member instead of defaulting; and the function is
deterministic (repeated application to the same role yields the same
result). -/
theorem homeRouteFor_total_amended :
    homeRouteFor (some "super_admin") = NavTarget.path "/admin" ∧
    homeRouteFor (some "admin") = NavTarget.path "/admin" ∧
    homeRouteFor (some "business") = NavTarget.path "/business" ∧
    homeRouteFor (some "staff") = NavTarget.path "/staff" ∧
    homeRouteFor (some "client") = NavTarget.path "/client" ∧
    homeRouteFor none = NavTarget.path "/" ∧
    (∀ r : String, r ∉ knownRoles → r ∉ objectPrototypeProps →
      homeRouteFor (some r) = NavTarget.path "/") ∧
    (∀ r : String, r ∈ objectPrototypeProps →
      homeRouteFor (some r) = NavTarget.protoFn r) ∧
    (∀ ro : Option String, homeRouteFor ro = homeRouteFor ro) := by
  refine ⟨rfl, rfl, rfl, rfl, rfl, rfl, ?_, ?_, fun _ => rfl⟩
  · intro r hr hp
    simp only [knownRoles, List.mem_cons, List.not_mem_nil, or_false] at hr
    push_neg at hr
    obtain ⟨h1, h2, h3, h4, h5⟩ := hr
    simp [homeRouteFor, redirectMap, h1, h2, h3, h4, h5, hp]
  · intro r hp
    simp only [objectPrototypeProps, List.mem_cons, List.not_mem_nil,
      or_false] at hp
    rcases hp with rfl | rfl | rfl | rfl | rfl | rfl | rfl | rfl | rfl |
      rfl | rfl | rfl <;> decide

/-- Witness for C3 (amended) at the unknown, non-inherited role
`"guest"` and the inherited key `"valueOf"`. -/
theorem homeRouteFor_total_amended_witness :
    homeRouteFor (some "guest") = NavTarget.path "/" ∧
    homeRouteFor (some "valueOf") = NavTarget.protoFn "valueOf" :=
  ⟨homeRouteFor_total_amended.2.2.2.2.2.2.1 "guest" (by decide) (by decide),
   homeRouteFor_total_amended.2.2.2.2.2.2.2.1 "valueOf" (by decide)⟩

/-- C1: for every guarded path of the route table whose allowed-role
set excludes the authenticated user's role, `ProtectedRoute` redirects
to `homeRouteFor` of that role and never renders the guarded
content. -/
theorem protectedRoute_wrong_role_redirects :
    ∀ (p : String) (rs : List String) (u : Identity),
    (p, RouteElement.protectedR rs) ∈ routeTable →
    u.role ∈ knownRoles →
    u.role ∉ rs →
    ProtectedRoute false (some u) (some rs)
      = GuardResult.redirect (homeRouteFor (some u.role)) true ∧
    ProtectedRoute false (some u) (some rs) ≠ GuardResult.render := by
  intro p rs u _hp _hk hr
  have hc : includesOpt rs (some u.role) = false := by
    simpa [includesOpt] using hr
  constructor
  · simp [ProtectedRoute, hc, roleOf]
  · simp [ProtectedRoute, hc, roleOf]

/-- Witness for C1: a client-role user on the `/admin` route. -/
theorem protectedRoute_wrong_role_redirects_witness :
    ProtectedRoute false (some someClient) (some ["super_admin", "admin"])
      = GuardResult.redirect (homeRouteFor (some someClient.role)) true ∧
    ProtectedRoute false (some someClient) (some ["super_admin", "admin"])
      ≠ GuardResult.render :=
  protectedRoute_wrong_role_redirects "/admin" ["super_admin", "admin"]
    someClient (by decide) (by decide) (by decide)

/-- C2: with no authenticated Identity and `loading = false`,
`ProtectedRoute` on any guarded path of the route table redirects to
`/login` replacing history; with an authenticated Identity,
`PublicRoute` on the `/login` and `/register` routes redirects to
`homeRouteFor` of the role instead of rendering the auth form. -/
theorem guards_unauth_and_public_redirects :
    (∀ (p : String) (rs : List String),
      (p, RouteElement.protectedR rs) ∈ routeTable →
      ProtectedRoute false none (some rs)
        = GuardResult.redirect (NavTarget.path "/login") true) ∧
    (∀ p : String, (p, RouteElement.publicR) ∈ routeTable →
      ∀ u : Identity,
        PublicRoute false (some u)
          = GuardResult.redirect (homeRouteFor (some u.role)) true ∧
        PublicRoute false (some u) ≠ GuardResult.render) := by
  constructor
  · intro p rs _hp
    rfl
  · intro p _hp u
    exact ⟨rfl, by simp [PublicRoute, roleOf]⟩

/-- Witness for C2: the `/business` guarded route unauthenticated, and
the `/login` public route with an authenticated client. -/
theorem guards_unauth_and_public_redirects_witness :
    ProtectedRoute false none (some ["business"])
      = GuardResult.redirect (NavTarget.path "/login") true ∧
    PublicRoute false (some someClient)
      = GuardResult.redirect (homeRouteFor (some someClient.role)) true :=
  ⟨guards_unauth_and_public_redirects.1 "/business" ["business"] (by decide),
   (guards_unauth_and_public_redirects.2 "/login" (by decide) someClient).1⟩

/-- C4: for every authenticated Identity, `canAccess` grants a resource
exactly when the role is `super_admin` (the `all` wildcard) or the
resource belongs to the role's fixed permitted set; in particular no
role reaches a resource outside its set. -/
theorem canAccess_iff_permitted :
    ∀ (u : Identity) (r : String),
    canAccess (some u) r = true ↔
      u.role = "super_admin" ∨ r ∈ permittedResources u.role := by
  intro u r
  unfold canAccess permissions permittedResources
  split_ifs <;> simp_all

/-- C8: `logout` clears the durable token, the in-memory token and the
Identity, and is idempotent; booting the session store with no stored
token reaches `loading = false` and `isAuthenticated = false` while
issuing zero network requests. -/
theorem logout_idempotent_cold_start_offline :
    ∀ s : SessionState,
      (logout s).stored = none ∧ (logout s).token = none ∧
      (logout s).user = none ∧ logout (logout s) = logout s ∧
      (initSession none).1.loading = false ∧
      isAuthenticated (initSession none).1 = false ∧
      (initSession none).2 = 0 := by
  intro s
  exact ⟨rfl, rfl, rfl, rfl, rfl, rfl, rfl⟩

/-- C9 counterexample: boot with a stored token, resolve the identity
fetch, run `logout()`, then let an in-flight profile save resolve and
call the unconditional `updateUser` — the session reaches a state with
the token absent and an Identity present, violating the claimed
consistency. -/
theorem session_invariant_violated :
    Reachable ⟨none, none, some someClient, false⟩ ∧
    (⟨none, none, some someClient, false⟩ : SessionState).token = none ∧
    (⟨none, none, some someClient, false⟩ : SessionState).user ≠ none := by
  refine ⟨?_, rfl, by simp⟩
  exact Reachable.doUpdateUser _ someClient
    (Reachable.doLogout _
      (Reachable.fetchUserOk "tok" someClient (Reachable.bootToken "tok")))

/-- C9 amended: at most one Identity is held at a time in any state;
and in every state reachable through initialization, login, register,
logout and the 401-forced logout — everything but the unconditional
`updateIdentity`, which can re-install an Identity after logout —
token and Identity are consistent: token absent implies Identity
absent. -/
theorem session_invariant_amended (s : SessionState)
    (h : ReachableNoUpdate s) :
    (s.token = none → s.user = none) ∧
    (∀ u1 u2 : Identity, s.user = some u1 → s.user = some u2 → u1 = u2) := by
  constructor
  · induction h with
    | bootNone => exact fun _ => rfl
    | bootToken t => intro hc; exact absurd hc (by simp)
    | fetchUserOk t u _ _ => intro hc; exact absurd hc (by simp)
    | fetchUserErr t _ _ => exact fun _ => rfl
    | loginOk s t u _ _ => intro hc; exact absurd hc (by simp)
    | registerOk s t u _ _ => intro hc; exact absurd hc (by simp)
    | doLogout s _ _ => exact fun _ => rfl
    | interceptor401 s _ ih => intro hc; exact ih hc
    | reload s _ _ =>
      cases hs : s.stored with
      | none => intro _; simp [initSession, hs]
      | some t =>
        intro hc
        exact absurd hc (by simp [initSession])
  · intro u1 u2 h1 h2
    rw [h1] at h2
    exact Option.some.inj h2

/-- Witness for C9 (amended) at the freshly booted tokenless state. -/
theorem session_invariant_amended_witness :
    ((⟨none, none, none, false⟩ : SessionState).token = none →
      (⟨none, none, none, false⟩ : SessionState).user = none) ∧
    (∀ u1 u2 : Identity,
      (⟨none, none, none, false⟩ : SessionState).user = some u1 →
      (⟨none, none, none, false⟩ : SessionState).user = some u2 →
      u1 = u2) :=
  session_invariant_amended _ ReachableNoUpdate.bootNone

/-- C10: with no Identity in the session, `hasRole` is `false` for
every string or list argument and `canAccess` is `false` for every
resource name. -/
theorem no_identity_denies_all :
    ∀ (arg : RoleArg) (r : String),
      hasRole none arg = false ∧ canAccess none r = false := by
  intro arg r
  exact ⟨rfl, rfl⟩

/-- C5 counterexample: with no stored token and the request `req0`
(URL `users`), the interceptor changes the URL to `users/`, so the
request is not left otherwise unmodified. -/
theorem requestInterceptor_modifies_url :
    (requestInterceptor none req0).url = some "users/" ∧
    req0.url = some "users" ∧
    (requestInterceptor none req0).url ≠ req0.url := by
  refine ⟨by decide, by decide, by decide⟩

/-- C5 amended: the interceptor adds `Authorization: Bearer <token>`
exactly when a stored token is present, rewrites the URL only by the
trailing-slash normalization, and leaves method, body and the other
headers unchanged. -/
theorem requestInterceptor_amended :
    ∀ (stored : Option String) (c : AxiosRequest),
      (requestInterceptor stored c).method = c.method ∧
      (requestInterceptor stored c).body = c.body ∧
      (requestInterceptor stored c).otherHeaders = c.otherHeaders ∧
      (requestInterceptor stored c).authorization
        = (match stored with
           | some t => some ("Bearer " ++ t)
           | none => c.authorization) ∧
      (requestInterceptor stored c).url = addTrailingSlash c.url := by
  intro stored c
  cases stored <;> exact ⟨rfl, rfl, rfl, rfl, rfl⟩

/-- Once the browser sits tokenless on `/login`, further 401 handlers
change nothing and emit nothing. -/
theorem on401Many_settled (n : Nat) :
    on401Many ⟨none, "/login"⟩ n = ⟨⟨none, "/login"⟩, 0, 0⟩ := by
  induction n with
  | zero => rfl
  | succ n ih => simp [on401Many, on401, ih]

/-- C6: a 401 response removes the durable token and navigates to
`/login` unless the path already is `/login`; across any number `n ≥ 1`
of concurrent requests all answered 401, the token removal and the
redirect each happen exactly once. -/
theorem on401_removes_and_redirects_once :
    (∀ (b : Browser) (n : Nat),
      b.stored.isSome = true → b.path ≠ "/login" → 1 ≤ n →
      (on401Many b n).finalState.stored = none ∧
      (on401Many b n).finalState.path = "/login" ∧
      (on401Many b n).navCount = 1 ∧
      (on401Many b n).removeCount = 1) ∧
    (∀ b : Browser, b.path = "/login" → (on401 b).2 = false) := by
  constructor
  · intro b n h1 h2 h3
    obtain ⟨m, rfl⟩ : ∃ m, n = m + 1 := ⟨n - 1, by omega⟩
    have hstep : on401 b = (⟨none, "/login"⟩, true) := by
      simp [on401, h2]
    simp [on401Many, hstep, on401Many_settled, h1]
  · intro b hb
    simp [on401, hb]

/-- Witness for C6: two concurrent 401s from `/admin` with a token. -/
theorem on401_removes_and_redirects_once_witness :
    (on401Many ⟨some "tok", "/admin"⟩ 2).finalState.stored = none ∧
    (on401Many ⟨some "tok", "/admin"⟩ 2).finalState.path = "/login" ∧
    (on401Many ⟨some "tok", "/admin"⟩ 2).navCount = 1 ∧
    (on401Many ⟨some "tok", "/admin"⟩ 2).removeCount = 1 :=
  on401_removes_and_redirects_once.1 ⟨some "tok", "/admin"⟩ 2
    (by decide) (by decide) (by decide)

/-- C7 counterexample: the error `err0` carries an object detail that
is neither a string nor a list, yet `parseErrorMessage` returns its
`msg` field `"boom"`, not the generic default `"Server error"`. -/
theorem parseErrorMessage_object_detail :
    parseErrorMessage err0 "Server error" = JsRes.ok (JVal.vstr "boom") ∧
    JsRes.ok (JVal.vstr "boom") ≠ JsRes.ok (JVal.vstr "Server error") := by
  constructor
  · rfl
  · intro h
    injection h with h1
    injection h1 with h2
    exact absurd h2 (by decide)

/-- Mapping the message extraction over the array detail throws exactly
when the array contains a null element, and otherwise produces the pure
fallback values. -/
theorem mapMsgs_eq (xs : List JVal) :
    mapMsgs xs =
      (if xs.any isNullV then JsRes.typeError
       else JsRes.ok (xs.map msgFallback)) := by
  induction xs with
  | nil => rfl
  | cons d ds ih =>
    cases d with
    | vnull => simp [mapMsgs, msgOrStringify, isNullV]
    | vnum n =>
      by_cases hd : ds.any isNullV = true <;>
        simp [mapMsgs, msgOrStringify, isNullV, ih, hd]
    | vstr s =>
      by_cases hd : ds.any isNullV = true <;>
        simp [mapMsgs, msgOrStringify, isNullV, ih, hd]
    | varr ys =>
      by_cases hd : ds.any isNullV = true <;>
        simp [mapMsgs, msgOrStringify, isNullV, ih, hd]
    | vobj fs =>
      by_cases hd : ds.any isNullV = true <;>
        simp [mapMsgs, msgOrStringify, isNullV, ih, hd]

/-- C7 amended: `parseErrorMessage` realizes the behaviour of
`parseErrorMessageSpec` — the `TypeError` of a null error propagates;
truthy string detail as-is; array detail throws on a null element and
otherwise joins its members' messages; other truthy object detail via
`msg`/`message`/serialization; generic default otherwise. -/
theorem parseErrorMessage_matches_spec :
    ∀ (e : JVal) (dm : String),
      parseErrorMessage e dm = parseErrorMessageSpec e dm := by
  intro e dm
  cases h : detailOf e with
  | typeError => simp [parseErrorMessage, parseErrorMessageSpec, h]
  | ok od =>
    cases od with
    | none => simp [parseErrorMessage, parseErrorMessageSpec, h]
    | some v =>
      cases v with
      | vnull => simp [parseErrorMessage, parseErrorMessageSpec, h, truthy]
      | vnum n => simp [parseErrorMessage, parseErrorMessageSpec, h, truthy]
      | vstr s =>
        by_cases hs : s = "" <;>
          simp [parseErrorMessage, parseErrorMessageSpec, h, truthy, hs]
      | varr xs =>
        by_cases ha : xs.any isNullV = true <;>
          simp [parseErrorMessage, parseErrorMessageSpec, h, truthy,
            mapMsgs_eq, ha, List.map_map, Function.comp_def]
      | vobj fs =>
        simp [parseErrorMessage, parseErrorMessageSpec, h, truthy,
          msgOrStringify]
